import Mathlib

/-!
Shallow embedding of the form--chat-app repository: the `/connect` proxy
route (src/unnamed/part_000), the `usePipecatClient` hook
(src/src/hooks/usePipecatClient.ts), the top-level `Page` component
(src/src/app/page.tsx) and the `FormArea` component
(src/src/components/FormArea.tsx), together with theorems settling the
frozen claims about them.
-/

namespace FormChatApp

/-! ## JS value helpers -/

/-- JS truthiness of an optional string property: `undefined` and `""` are
falsy, every other string is truthy. -/
def jsTruthy : Option String → Bool
  | none => false
  | some s => s ≠ ""

/-- JS `a || b` on optional string values: yields `a` when `a` is truthy,
otherwise yields `b` unchanged. -/
def jsOr (a b : Option String) : Option String :=
  if jsTruthy a then a else b

/-- JS `String.prototype.trim()`: removes leading and trailing whitespace.
Written structurally over the character list so it evaluates. -/
def jsTrim (s : String) : String :=
  ⟨(((s.data.dropWhile Char.isWhitespace).reverse.dropWhile Char.isWhitespace).reverse)⟩

/-! ## The proxy route (src/unnamed/part_000) -/

/-- `FALLBACK_WS_URL` from the route file (line 16). -/
def FALLBACK_WS_URL : String :=
  "wss://manjujayamurali--skills-assessment-quiz-bot-fastapi-app.modal.run/ws"

/-- The `PipecatServerResponse` interface (lines 9-13): each field is a JS
property that may be absent (`none`) or hold a string. -/
structure PipecatServerResponse where
  ws_url : Option String
  wsUrl : Option String
  websocket_url : Option String
deriving Repr, DecidableEq

/-- The outcome of the `fetch(PIPECAT_SERVER_URL, ...)` call inside the
route's inner `try` (lines 36-50), as observed by the handler: the fetch
itself can throw (network error or the 10-second `AbortSignal.timeout`),
the response can be non-OK (the code then throws `HTTP <status>` into the
inner catch), `response.json()` can throw, or an OK response parses to a
`PipecatServerResponse`. `handlerException` covers an exception thrown
outside the inner `try`, reaching the outer catch (lines 73-84). -/
inductive UpstreamOutcome where
  | fetchFailure
  | notOk (status : Nat)
  | jsonFailure
  | okJson (data : PipecatServerResponse)
  | handlerException
deriving Repr, DecidableEq

/-- The JSON body and HTTP status the route responds with: `wsUrl` is the
body's `wsUrl` field, `fallback` whether the body carried `fallback: true`,
`status` the HTTP status of the response. -/
structure RouteResponse where
  wsUrl : String
  fallback : Bool
  status : Nat
deriving Repr, DecidableEq

/-- The `POST` handler of the route (lines 18-85) as a function of the
upstream outcome. On an OK parse it extracts
`data.ws_url || data.wsUrl || data.websocket_url` (line 54) and answers
with it when truthy (lines 56-58), with the fallback otherwise
(lines 59-62); every failure of the inner `try` lands in the inner catch
(lines 63-72) answering the fallback with `fallback: true`; an exception
outside lands in the outer catch (lines 73-84) answering the fallback
with status 500. -/
def POST (u : UpstreamOutcome) : RouteResponse :=
  match u with
  | .fetchFailure => ⟨FALLBACK_WS_URL, true, 200⟩
  | .notOk _ => ⟨FALLBACK_WS_URL, true, 200⟩
  | .jsonFailure => ⟨FALLBACK_WS_URL, true, 200⟩
  | .okJson data =>
      let wsUrl := jsOr data.ws_url (jsOr data.wsUrl data.websocket_url)
      if jsTruthy wsUrl then ⟨wsUrl.getD "", false, 200⟩
      else ⟨FALLBACK_WS_URL, false, 200⟩
  | .handlerException => ⟨FALLBACK_WS_URL, true, 500⟩

/-- "The upstream /connect call fails in any way": the fetch threw
(network error or timeout), the HTTP status was non-OK, the body failed to
parse, the handler threw, or the parsed body has no WebSocket URL field at
all. -/
def upstreamFailed : UpstreamOutcome → Prop
  | .fetchFailure => True
  | .notOk _ => True
  | .jsonFailure => True
  | .okJson data => data.ws_url = none ∧ data.wsUrl = none ∧ data.websocket_url = none
  | .handlerException => True

instance (u : UpstreamOutcome) : Decidable (upstreamFailed u) := by
  cases u <;> simp [upstreamFailed] <;> infer_instance

/-- First field in the list that holds a nonempty string, if any. -/
def firstNonempty : List (Option String) → Option String
  | [] => none
  | o :: rest =>
      match o with
      | some s => if s ≠ "" then some s else firstNonempty rest
      | none => firstNonempty rest

/-- The URL the spec says the route takes from a successful upstream
response: the first of `ws_url`, `wsUrl`, `websocket_url` that holds a
(nonempty) WebSocket URL. -/
def specSelectedUrl (data : PipecatServerResponse) : Option String :=
  firstNonempty [data.ws_url, data.wsUrl, data.websocket_url]

/-! ## The usePipecatClient hook (src/src/hooks/usePipecatClient.ts)

The hook's reactive state (`useState` declarations, lines 110-117) is
modelled as `HookState`; the external `PipecatClient` object is opaque, so
the `client` state only records presence. Message ids and timestamps come
from `Date.now()`, `Math.random()` and `new Date()`; these
environment-supplied values are passed as a `MsgEnv` argument. -/

/-- The three message kinds of the `BotMessage` interface (line 13). -/
inductive MsgType where
  | bot
  | user
  | system
deriving Repr, DecidableEq

/-- The `BotMessage` interface (lines 11-16). -/
structure BotMessage where
  id : String
  type : MsgType
  content : String
  timestamp : Nat
deriving Repr, DecidableEq

/-- The environment-derived parts of a new message: the id string built
from `Date.now()` and `Math.random()` (line 133) and the `new Date()`
timestamp (line 134), modelled as milliseconds. -/
structure MsgEnv where
  id : String
  timestamp : Nat
deriving Repr, DecidableEq

/-- The hook's reactive state (`useState` declarations, lines 110-117).
The opaque external `PipecatClient` is modelled by presence only. -/
structure HookState where
  client : Option Unit
  isConnected : Bool
  isConnecting : Bool
  isBotReady : Bool
  isBotSpeaking : Bool
  isUserSpeaking : Bool
  messages : List BotMessage
  error : Option String
deriving Repr, DecidableEq

/-- The initial hook state: every `useState` initialiser
(lines 110-117). -/
def initialHookState : HookState :=
  ⟨none, false, false, false, false, false, [], none⟩

/-- `addMessage` (lines 130-137): appends a message with the
environment-supplied id and timestamp to the `messages` state. -/
def addMessage (env : MsgEnv) (t : MsgType) (content : String) (s : HookState) : HookState :=
  { s with messages := s.messages ++ [⟨env.id, t, content, env.timestamp⟩] }

/-- A JS error object as inspected by `handleError`: its `message`
property and its `data.message` property, each possibly absent. -/
structure JsErrorObj where
  message : Option String
  dataMessage : Option String
deriving Repr, DecidableEq

/-- A JS value passed to `handleError` as the error: either an error-like
object or a plain string. -/
inductive JsError where
  | obj (e : JsErrorObj)
  | str (s : String)
deriving Repr, DecidableEq

/-- The message-extraction cascade of `handleError` (lines 147-155):
`error?.message` when truthy, else the error itself when it is a string,
else `error?.data?.message` when truthy, else the default text. -/
def errorMessageOf : JsError → String
  | .obj e =>
      if jsTruthy e.message then e.message.getD ""
      else if jsTruthy e.dataMessage then e.dataMessage.getD ""
      else "An unexpected error occurred"
  | .str s => s

/-- `handleError` (lines 144-172): derives the error message, prefixes the
context when one is given (lines 157-159), stores it in the `error` state
(line 161) and appends a system message `Error: <message>`
(lines 163-166). The `setTimeout` it schedules is modelled by
`handleErrorClearDelayMs` and `handleErrorClearAction` below. -/
def handleError (env : MsgEnv) (e : JsError) (context : Option String) (s : HookState) :
    HookState :=
  let errorMessage := errorMessageOf e
  let errorMessage :=
    if jsTruthy context then (context.getD "") ++ ": " ++ errorMessage else errorMessage
  addMessage env .system ("Error: " ++ errorMessage) { s with error := some errorMessage }

/-- The delay of the `setTimeout` scheduled by `handleError`
(line 171): 10000 milliseconds. -/
def handleErrorClearDelayMs : Nat := 10000

/-- The callback of the `setTimeout` scheduled by `handleError`
(lines 169-171): `setError(null)`. -/
def handleErrorClearAction (s : HookState) : HookState :=
  { s with error := none }

/-- The `onConnected` callback (lines 251-260). -/
def onConnected (env : MsgEnv) (s : HookState) : HookState :=
  addMessage env .system "Connected to voice assistant via WebSocket"
    { s with isConnected := true, isConnecting := false, error := none }

/-- The `onDisconnected` callback (lines 262-273): clears the five
connection/media flags and appends a system message. -/
def onDisconnected (env : MsgEnv) (s : HookState) : HookState :=
  addMessage env .system "Disconnected from voice assistant"
    { s with isConnected := false, isConnecting := false, isBotReady := false,
             isBotSpeaking := false, isUserSpeaking := false }

/-- The `onTransportStateChanged` callback (lines 275-296): the `switch`
on the transport state string; states not listed fall through with no
state update. -/
def onTransportStateChanged (state : String) (s : HookState) : HookState :=
  if state = "connecting" then { s with isConnecting := true }
  else if state = "connected" then { s with isConnected := true, isConnecting := false }
  else if state = "disconnecting" then { s with isConnecting := false }
  else if state = "disconnected" ∨ state = "failed" then
    { s with isConnected := false, isConnecting := false, isBotReady := false }
  else s

/-- The `data` argument of a transcript callback: its `text` property
(possibly absent) and its `final` flag (`undefined` reads as false in the
`&&` chain, so a boolean suffices). The whole argument may itself be
null/undefined, hence the callbacks below take `Option TranscriptData`. -/
structure TranscriptData where
  text : Option String
  final : Bool
deriving Repr, DecidableEq

/-- The `onUserTranscript` callback (lines 325-333): appends a user
message with the trimmed text when `data?.text && data.text.trim() &&
data.final` holds. -/
def onUserTranscript (env : MsgEnv) (data : Option TranscriptData) (s : HookState) :
    HookState :=
  match data with
  | none => s
  | some d =>
      match d.text with
      | none => s
      | some t =>
          if t ≠ "" ∧ jsTrim t ≠ "" ∧ d.final then addMessage env .user (jsTrim t) s else s

/-- The `onBotTranscript` callback (lines 335-343): appends a bot message
with the trimmed text when `data?.text && data.text.trim()` holds. -/
def onBotTranscript (env : MsgEnv) (data : Option TranscriptData) (s : HookState) :
    HookState :=
  match data with
  | none => s
  | some d =>
      match d.text with
      | none => s
      | some t => if t ≠ "" ∧ jsTrim t ≠ "" then addMessage env .bot (jsTrim t) s else s

/-- The `onBotLlmText` callback (lines 345-353); its body is identical to
`onBotTranscript`. -/
def onBotLlmText (env : MsgEnv) (data : Option TranscriptData) (s : HookState) :
    HookState :=
  match data with
  | none => s
  | some d =>
      match d.text with
      | none => s
      | some t => if t ≠ "" ∧ jsTrim t ≠ "" then addMessage env .bot (jsTrim t) s else s

/-- The `onBotTtsText` callback (lines 355-363); its body is identical to
`onBotTranscript`. -/
def onBotTtsText (env : MsgEnv) (data : Option TranscriptData) (s : HookState) :
    HookState :=
  match data with
  | none => s
  | some d =>
      match d.text with
      | none => s
      | some t => if t ≠ "" ∧ jsTrim t ≠ "" then addMessage env .bot (jsTrim t) s else s

/-- Whether a call into the opaque SDK client returns normally or throws;
the thrown value is what the surrounding catch receives. -/
inductive SdkCallResult where
  | ok
  | threw (e : JsError)
deriving Repr, DecidableEq

/-- The observable outcome of `sendMessage`: the resulting hook state and
the list of SDK methods invoked. -/
structure SendMessageResult where
  state : HookState
  sdkCalls : List String
deriving Repr, DecidableEq

/-- `sendMessage` (lines 587-601): when `!client || !isConnected` it calls
`handleError('Not connected to bot', 'Send Message')` and returns without
any SDK call; otherwise it calls `client.sendClientMessage`, routing a
thrown error through `handleError`. -/
def sendMessage (env : MsgEnv) (sdk : SdkCallResult) (s : HookState) :
    SendMessageResult :=
  if s.client = none ∨ s.isConnected = false then
    ⟨handleError env (.str "Not connected to bot") (some "Send Message") s, []⟩
  else
    match sdk with
    | .ok => ⟨s, ["sendClientMessage"]⟩
    | .threw e => ⟨handleError env e (some "Send Message") s, ["sendClientMessage"]⟩

/-- The observable outcome of `sendRequest`: the resulting hook state, the
SDK methods invoked, and the promise outcome (`Except.error` is a
rejection with the thrown JS error). -/
structure SendRequestResult where
  state : HookState
  sdkCalls : List String
  result : Except JsError Unit
deriving Repr

/-- `sendRequest` (lines 603-619): when `!client || !isConnected` it
builds `new Error('Not connected to bot')`, routes it through
`handleError` with context `Send Request`, and rejects with that error,
making no SDK call; otherwise it calls `client.sendClientRequest`,
routing a thrown error through `handleError` and rethrowing it. -/
def sendRequest (env : MsgEnv) (sdk : SdkCallResult) (s : HookState) :
    SendRequestResult :=
  if s.client = none ∨ s.isConnected = false then
    ⟨handleError env (.obj ⟨some "Not connected to bot", none⟩) (some "Send Request") s, [],
      .error (.obj ⟨some "Not connected to bot", none⟩)⟩
  else
    match sdk with
    | .ok => ⟨s, ["sendClientRequest"], .ok ()⟩
    | .threw e => ⟨handleError env e (some "Send Request") s, ["sendClientRequest"], .error e⟩

/-- The observable outcome of `appendToContext`: the resulting hook state,
the SDK methods invoked, and the boolean the promise resolves to. -/
structure AppendToContextResult where
  state : HookState
  sdkCalls : List String
  result : Bool
deriving Repr, DecidableEq

/-- `appendToContext` (lines 621-644): when `!client || !isConnected` it
calls `handleError('Not connected to bot', 'Append Context')` and resolves
to false with no SDK call; otherwise it calls `client.appendToContext`
when the client has that method and falls back to
`client.sendClientMessage('context', ...)` otherwise, resolving to true,
and resolves to false through `handleError` when the call throws. -/
def appendToContext (env : MsgEnv) (hasAppend : Bool) (sdk : SdkCallResult) (s : HookState) :
    AppendToContextResult :=
  if s.client = none ∨ s.isConnected = false then
    ⟨handleError env (.str "Not connected to bot") (some "Append Context") s, [], false⟩
  else
    let call := if hasAppend then "appendToContext" else "sendClientMessage"
    match sdk with
    | .ok => ⟨s, [call], true⟩
    | .threw e => ⟨handleError env e (some "Append Context") s, [call], false⟩

/-- `disconnect` (lines 541-569): awaits `client.disconnect()` inside a
try whose catch only logs (the `threw` argument records whether it threw),
closes the audio context ref (outside `HookState`), then sets `client` to
null, the five flags to false and `error` to null, leaving `messages`
untouched. -/
def disconnect (_threw : Bool) (s : HookState) : HookState :=
  { s with client := none, isConnected := false, isConnecting := false, isBotReady := false,
           isBotSpeaking := false, isUserSpeaking := false, error := none }

/-! ## The Page component (src/src/app/page.tsx) -/

/-- The member names of the object returned by `usePipecatClient`
(the return statement, lines 887-937 of the hook). -/
def usePipecatClientReturnMembers : List String :=
  ["client", "isConnected", "isConnecting", "isBotReady", "isBotSpeaking",
   "isUserSpeaking", "messages", "error",
   "startBot", "connect", "startBotAndConnect", "disconnect", "disconnectBot",
   "sendMessage", "sendRequest", "appendToContext",
   "initDevices", "getAllMics", "getAllCams", "getAllSpeakers",
   "updateMic", "updateCam", "updateSpeaker",
   "enableMic", "enableCam", "enableScreenShare",
   "selectedMic", "selectedCam", "selectedSpeaker",
   "isMicEnabled", "isCamEnabled", "isSharingScreen",
   "tracks", "registerFunctionCallHandler", "setLogLevel",
   "clearMessages", "clearError"]

/-- The member names the `Page` component destructures from the hook's
return value and uses in its connect/disconnect handlers
(src/src/app/page.tsx, lines 28-35). -/
def pageDestructuredMembers : List String :=
  ["isConnected", "isConnecting", "isBotReady", "error", "connectToBot", "disconnect"]

/-! ## The FormArea component (src/src/components/FormArea.tsx)

`FormState` models the component-state fields that `handleServerMessage`
and `logServerMessage` read or write: `currentQuestion`, `selectedAnswer`,
`hasQuizStarted` and `serverMessages`. -/

/-- The `QuizOption` interface (lines 15-19). JS numbers of quiz scores
are modelled as integers. -/
structure QuizOption where
  label : String
  text : String
  score : Int
deriving Repr, DecidableEq

/-- The `QuizQuestion` value built by `handleServerMessage`
(lines 114-121). The incoming message is `any`, so each copied field may
be absent at runtime; `options` is defaulted with `data.options || []`. -/
structure QuizQuestion where
  type : Option String
  question_index : Option Int
  question_id : Option String
  question_text : Option String
  options : List QuizOption
  total_questions : Option Int
deriving Repr, DecidableEq

/-- The fields of an incoming server message that `handleServerMessage`
and `logServerMessage` inspect; all may be absent since the message is
untyped. -/
structure ServerMsgData where
  type : Option String
  event : Option String
  question_index : Option Int
  question_id : Option String
  question_text : Option String
  options : Option (List QuizOption)
  total_questions : Option Int
deriving Repr, DecidableEq

/-- An entry of the `serverMessages` log (the `ServerMessage` interface,
lines 42-49): id and timestamp come from the environment, `type` is the
context (`context || 'unknown'`), `event` is
`message?.type || message?.event || 'unknown'`, and the raw message is
kept. -/
structure ServerMessageLog where
  id : String
  timestamp : Nat
  type : String
  event : String
  raw : Option ServerMsgData
deriving Repr, DecidableEq

/-- The `FormArea` component state touched by the server-message handler
(`useState` declarations, lines 52-57). -/
structure FormState where
  currentQuestion : Option QuizQuestion
  selectedAnswer : String
  hasQuizStarted : Bool
  serverMessages : List ServerMessageLog
deriving Repr, DecidableEq

/-- The initial `FormArea` state (lines 52-57): no question, empty
selection, quiz not started, no logged messages. -/
def initialFormState : FormState :=
  ⟨none, "", false, []⟩

/-- `logServerMessage` (lines 69-93): appends a `ServerMessage` entry to
the `serverMessages` state. -/
def logServerMessage (env : MsgEnv) (message : Option ServerMsgData) (context : Option String)
    (s : FormState) : FormState :=
  let event :=
    match message with
    | none => "unknown"
    | some m =>
        if jsTruthy m.type then m.type.getD ""
        else if jsTruthy m.event then m.event.getD ""
        else "unknown"
  { s with serverMessages := s.serverMessages ++
      [⟨env.id, env.timestamp,
        (if jsTruthy context then context.getD "" else "unknown"), event, message⟩] }

/-- `handleServerMessage` (lines 107-136): logs the message, then on
`type === 'quiz_question'` builds a `QuizQuestion` from the message's
fields (with `options` defaulting to `[]`), resets `selectedAnswer` and
marks the quiz started; on `type === 'quiz_complete'` clears
`currentQuestion`. -/
def handleServerMessage (env : MsgEnv) (data : Option ServerMsgData) (s : FormState) :
    FormState :=
  let s1 := logServerMessage env data (some "SERVER_MESSAGE_QUIZ") s
  match data with
  | none => s1
  | some d =>
      let s2 :=
        if d.type = some "quiz_question" then
          { s1 with
            currentQuestion := some ⟨d.type, d.question_index, d.question_id,
              d.question_text, d.options.getD [], d.total_questions⟩,
            selectedAnswer := "",
            hasQuizStarted := true }
        else s1
      if d.type = some "quiz_complete" then { s2 with currentQuestion := none } else s2

end FormChatApp

namespace FormChatApp

/-! ## Theorems settling the claims -/

/-- C1: for every POST request, if the upstream /connect call fails in any
way (network error, timeout, non-OK HTTP status, a response body without a
WebSocket URL field, or an exception thrown anywhere in the handler), the
route still responds with a JSON body whose `wsUrl` field equals the
hardcoded fallback WebSocket URL. -/
theorem post_fallback_on_failure (u : UpstreamOutcome) (h : upstreamFailed u) :
    (POST u).wsUrl = FALLBACK_WS_URL := by
  cases u with
  | okJson data =>
      obtain ⟨h1, h2, h3⟩ := h
      simp [POST, jsOr, jsTruthy, h1, h2, h3]
  | fetchFailure => rfl
  | notOk s => rfl
  | jsonFailure => rfl
  | handlerException => rfl

/-- Witness for C1: a concrete failing upstream outcome (the fetch threw)
makes the route answer the fallback URL. -/
theorem post_fallback_on_failure_witness :
    upstreamFailed .fetchFailure ∧ (POST .fetchFailure).wsUrl = FALLBACK_WS_URL :=
  ⟨by decide, post_fallback_on_failure .fetchFailure (by decide)⟩

/-- C3: for every POST request, when the upstream call succeeds with an OK
status and its JSON body contains a WebSocket URL in any of `ws_url`,
`wsUrl`, `websocket_url`, the route responds with that URL, taking
`ws_url` first, then `wsUrl`, then `websocket_url`. -/
theorem post_forwards_upstream_url (data : PipecatServerResponse) (s : String)
    (h : specSelectedUrl data = some s) :
    (POST (.okJson data)).wsUrl = s := by
  obtain ⟨w, u, v⟩ := data
  rcases w with _ | a <;> rcases u with _ | b <;> rcases v with _ | c <;>
    simp only [specSelectedUrl, firstNonempty, POST, jsOr, jsTruthy] at h ⊢ <;>
    split_ifs at h ⊢ <;> simp_all

/-- Witness for C3: a concrete OK upstream body carrying only
`websocket_url` makes the route answer exactly that URL. -/
theorem post_forwards_upstream_url_witness :
    specSelectedUrl ⟨none, none, some "wss://u/ws"⟩ = some "wss://u/ws" ∧
      (POST (.okJson ⟨none, none, some "wss://u/ws"⟩)).wsUrl = "wss://u/ws" :=
  ⟨by decide, post_forwards_upstream_url ⟨none, none, some "wss://u/ws"⟩ "wss://u/ws" (by decide)⟩

/-- C2 fails on the code: the `Page` component destructures and invokes
`connectToBot`, but the object returned by `usePipecatClient` has no such
member (its connect method is named `startBotAndConnect`), so
`handleConnect` invokes an undefined value. -/
theorem page_connectToBot_not_returned :
    "connectToBot" ∈ pageDestructuredMembers ∧
      "connectToBot" ∉ usePipecatClientReturnMembers := by
  decide

/-- C4: the `onDisconnected` callback sets `isConnected`, `isConnecting`,
`isBotReady`, `isBotSpeaking` and `isUserSpeaking` all to false and
appends exactly one system message with content
`Disconnected from voice assistant`, keeping all stored messages. -/
theorem onDisconnected_clears_flags_and_logs (env : MsgEnv) (s : HookState) :
    (onDisconnected env s).isConnected = false ∧
    (onDisconnected env s).isConnecting = false ∧
    (onDisconnected env s).isBotReady = false ∧
    (onDisconnected env s).isBotSpeaking = false ∧
    (onDisconnected env s).isUserSpeaking = false ∧
    (onDisconnected env s).messages =
      s.messages ++ [⟨env.id, .system, "Disconnected from voice assistant", env.timestamp⟩] := by
  simp [onDisconnected, addMessage]

/-- C5: after `onTransportStateChanged`, the connection flags follow the
state mapping of the `switch`: `connecting` sets `isConnecting`;
`connected` sets `isConnected` and clears `isConnecting`; `disconnecting`
clears `isConnecting`; `disconnected`/`failed` clear `isConnected`,
`isConnecting` and `isBotReady`; any other state leaves the whole state
unchanged. In particular after a `disconnected` or `failed` state,
`isBotReady` is false. -/
theorem onTransportStateChanged_mapping (state : String) (s : HookState) :
    (state = "connecting" →
      onTransportStateChanged state s = { s with isConnecting := true }) ∧
    (state = "connected" →
      onTransportStateChanged state s = { s with isConnected := true, isConnecting := false }) ∧
    (state = "disconnecting" →
      onTransportStateChanged state s = { s with isConnecting := false }) ∧
    ((state = "disconnected" ∨ state = "failed") →
      onTransportStateChanged state s =
        { s with isConnected := false, isConnecting := false, isBotReady := false }) ∧
    (state ≠ "connecting" → state ≠ "connected" → state ≠ "disconnecting" →
      state ≠ "disconnected" → state ≠ "failed" →
      onTransportStateChanged state s = s) ∧
    ((state = "disconnected" ∨ state = "failed") →
      (onTransportStateChanged state s).isBotReady = false) := by
  refine ⟨?_, ?_, ?_, ?_, ?_, ?_⟩
  · intro h; subst h; simp [onTransportStateChanged]
  · intro h; subst h; simp [onTransportStateChanged]
  · intro h; subst h; simp [onTransportStateChanged]
  · rintro (h | h) <;> subst h <;> simp [onTransportStateChanged]
  · intro h1 h2 h3 h4 h5
    simp [onTransportStateChanged, h1, h2, h3, h4, h5]
  · rintro (h | h) <;> subst h <;> simp [onTransportStateChanged]

/-- Witness for C5: after a concrete `failed` transport state, the hook
with all flags raised has `isBotReady` false and the mapped flag
values. -/
theorem onTransportStateChanged_mapping_witness :
    onTransportStateChanged "failed"
        { initialHookState with isConnected := true, isConnecting := true, isBotReady := true } =
      { initialHookState with isConnected := false, isConnecting := false, isBotReady := false } ∧
    (onTransportStateChanged "failed"
        { initialHookState with
          isConnected := true
          isConnecting := true
          isBotReady := true }).isBotReady = false := by
  have h := onTransportStateChanged_mapping "failed"
    { initialHookState with isConnected := true, isConnecting := true, isBotReady := true }
  exact ⟨h.2.2.2.1 (Or.inr rfl), h.2.2.2.2.2 (Or.inr rfl)⟩

/-- Trimming the empty string yields the empty string; hence a string with
nonempty trim is itself nonempty, which is why the code's extra
`data.text` truthiness test adds nothing over `data.text.trim()`. -/
theorem jsTrim_empty : jsTrim "" = "" := rfl

/-- C6: `onUserTranscript` appends one user message with the trimmed text
exactly when the data has a text whose trim is nonempty and the final
flag is true (interim transcripts leave the messages unchanged);
`onBotTranscript`, `onBotLlmText` and `onBotTtsText` each append one bot
message with the trimmed text exactly when the trim is nonempty. -/
theorem transcript_callbacks_append_iff (env : MsgEnv) (d : TranscriptData) (s : HookState) :
    ((∃ t, d.text = some t ∧ jsTrim t ≠ "" ∧ d.final = true) →
       (onUserTranscript env (some d) s).messages =
         s.messages ++ [⟨env.id, .user, jsTrim (d.text.getD ""), env.timestamp⟩]) ∧
    (¬(∃ t, d.text = some t ∧ jsTrim t ≠ "" ∧ d.final = true) →
       onUserTranscript env (some d) s = s) ∧
    onUserTranscript env none s = s ∧
    ((∃ t, d.text = some t ∧ jsTrim t ≠ "") →
       (onBotTranscript env (some d) s).messages =
         s.messages ++ [⟨env.id, .bot, jsTrim (d.text.getD ""), env.timestamp⟩]) ∧
    (¬(∃ t, d.text = some t ∧ jsTrim t ≠ "") →
       onBotTranscript env (some d) s = s) ∧
    onBotTranscript env none s = s ∧
    ((∃ t, d.text = some t ∧ jsTrim t ≠ "") →
       (onBotLlmText env (some d) s).messages =
         s.messages ++ [⟨env.id, .bot, jsTrim (d.text.getD ""), env.timestamp⟩]) ∧
    (¬(∃ t, d.text = some t ∧ jsTrim t ≠ "") →
       onBotLlmText env (some d) s = s) ∧
    onBotLlmText env none s = s ∧
    ((∃ t, d.text = some t ∧ jsTrim t ≠ "") →
       (onBotTtsText env (some d) s).messages =
         s.messages ++ [⟨env.id, .bot, jsTrim (d.text.getD ""), env.timestamp⟩]) ∧
    (¬(∃ t, d.text = some t ∧ jsTrim t ≠ "") →
       onBotTtsText env (some d) s = s) ∧
    onBotTtsText env none s = s := by
  obtain ⟨txt, fin⟩ := d
  rcases txt with _ | t
  · refine ⟨?_, ?_, rfl, ?_, ?_, rfl, ?_, ?_, rfl, ?_, ?_, rfl⟩ <;>
      simp [onUserTranscript, onBotTranscript, onBotLlmText, onBotTtsText]
  · by_cases hte : t = ""
    · subst hte
      refine ⟨?_, ?_, rfl, ?_, ?_, rfl, ?_, ?_, rfl, ?_, ?_, rfl⟩ <;>
        simp [onUserTranscript, onBotTranscript, onBotLlmText, onBotTtsText, jsTrim_empty]
    · by_cases hf : fin = true <;> by_cases htr : jsTrim t = "" <;>
        refine ⟨?_, ?_, rfl, ?_, ?_, rfl, ?_, ?_, rfl, ?_, ?_, rfl⟩ <;>
          simp_all [onUserTranscript, onBotTranscript, onBotLlmText, onBotTtsText, addMessage]

/-- Witness for C6: a concrete final user transcript with text `" hi "`
appends exactly the user message `hi`. -/
theorem transcript_callbacks_append_iff_witness :
    (onUserTranscript ⟨"m1", 5⟩ (some ⟨some " hi ", true⟩) initialHookState).messages =
      [⟨"m1", MsgType.user, "hi", 5⟩] :=
  ((transcript_callbacks_append_iff ⟨"m1", 5⟩ ⟨some " hi ", true⟩ initialHookState).1
    ⟨" hi ", rfl, by decide, rfl⟩).trans (by decide)

/-- C7: on a `quiz_question` server message, `FormArea` sets
`currentQuestion` to a question built from the message's fields (with
`options` defaulting to the empty list), resets `selectedAnswer` to the
empty string and sets `hasQuizStarted`; on `quiz_complete` it clears
`currentQuestion`; any other message (including a null one) leaves
`currentQuestion`, `selectedAnswer` and `hasQuizStarted` unchanged. -/
theorem handleServerMessage_quiz_transitions (env : MsgEnv) (data : Option ServerMsgData)
    (s : FormState) :
    (∀ d, data = some d → d.type = some "quiz_question" →
       (handleServerMessage env data s).currentQuestion =
         some ⟨d.type, d.question_index, d.question_id, d.question_text,
           d.options.getD [], d.total_questions⟩ ∧
       (handleServerMessage env data s).selectedAnswer = "" ∧
       (handleServerMessage env data s).hasQuizStarted = true) ∧
    (∀ d, data = some d → d.type = some "quiz_complete" →
       (handleServerMessage env data s).currentQuestion = none) ∧
    ((∀ d, data = some d → d.type ≠ some "quiz_question" ∧ d.type ≠ some "quiz_complete") →
       (handleServerMessage env data s).currentQuestion = s.currentQuestion ∧
       (handleServerMessage env data s).selectedAnswer = s.selectedAnswer ∧
       (handleServerMessage env data s).hasQuizStarted = s.hasQuizStarted) := by
  refine ⟨?_, ?_, ?_⟩
  · rintro d rfl ht
    simp [handleServerMessage, logServerMessage, ht]
  · rintro d rfl ht
    simp [handleServerMessage, logServerMessage, ht]
  · intro hother
    rcases data with _ | d
    · simp [handleServerMessage, logServerMessage]
    · obtain ⟨h1, h2⟩ := hother d rfl
      simp [handleServerMessage, logServerMessage, h1, h2]

/-- Witness for C7: a concrete `quiz_question` message installs the
question built from its fields. -/
theorem handleServerMessage_quiz_transitions_witness :
    (handleServerMessage ⟨"s1", 3⟩
        (some ⟨some "quiz_question", none, some 0, some "q1", some "Which?", some [], some 5⟩)
        initialFormState).currentQuestion =
      some ⟨some "quiz_question", some 0, some "q1", some "Which?", [], some 5⟩ :=
  ((handleServerMessage_quiz_transitions ⟨"s1", 3⟩
      (some ⟨some "quiz_question", none, some 0, some "q1", some "Which?", some [], some 5⟩)
      initialFormState).1
    ⟨some "quiz_question", none, some 0, some "q1", some "Which?", some [], some 5⟩ rfl rfl).1

/-- C8: when the client is null or `isConnected` is false, `sendMessage`
makes no SDK call and sets the error state; `sendRequest` makes no SDK
call and rejects with an Error whose message is `Not connected to bot`;
`appendToContext` makes no SDK call, sets the error state and resolves to
false. -/
theorem messaging_guards_when_disconnected (env : MsgEnv) (sdk : SdkCallResult)
    (hasAppend : Bool) (s : HookState)
    (h : s.client = none ∨ s.isConnected = false) :
    (sendMessage env sdk s).sdkCalls = [] ∧
    (sendMessage env sdk s).state.error = some "Send Message: Not connected to bot" ∧
    (sendRequest env sdk s).sdkCalls = [] ∧
    (sendRequest env sdk s).result = .error (.obj ⟨some "Not connected to bot", none⟩) ∧
    (appendToContext env hasAppend sdk s).sdkCalls = [] ∧
    (appendToContext env hasAppend sdk s).state.error =
      some "Append Context: Not connected to bot" ∧
    (appendToContext env hasAppend sdk s).result = false := by
  refine ⟨?_, ?_, ?_, ?_, ?_, ?_, ?_⟩ <;>
    simp only [sendMessage, sendRequest, appendToContext, if_pos h] <;>
    simp [handleError, errorMessageOf, jsTruthy, addMessage]

/-- Witness for C8: on the initial (disconnected) hook state,
`sendRequest` rejects with `Not connected to bot`. -/
theorem messaging_guards_when_disconnected_witness :
    (sendRequest ⟨"m2", 7⟩ .ok initialHookState).result =
      .error (.obj ⟨some "Not connected to bot", none⟩) :=
  (messaging_guards_when_disconnected ⟨"m2", 7⟩ .ok true initialHookState (Or.inl rfl)).2.2.2.1

/-- C9: after `disconnect` resolves, the client is null, the five
connection/media flags are false and the error is null, while the
messages list is exactly what it was before the call. -/
theorem disconnect_resets_flags_keeps_messages (threw : Bool) (s : HookState) :
    (disconnect threw s).client = none ∧
    (disconnect threw s).isConnected = false ∧
    (disconnect threw s).isConnecting = false ∧
    (disconnect threw s).isBotReady = false ∧
    (disconnect threw s).isBotSpeaking = false ∧
    (disconnect threw s).isUserSpeaking = false ∧
    (disconnect threw s).error = none ∧
    (disconnect threw s).messages = s.messages := by
  simp [disconnect]

/-- C10: every `handleError` invocation sets the error state to a
non-null string (prefixed by the context when one is given) and appends
exactly one system message whose content is `Error: ` followed by that
string; the timeout it schedules fires after 10000 ms (10 seconds) and
resets the error state to null. -/
theorem handleError_reports_and_schedules_clear (env : MsgEnv) (e : JsError)
    (context : Option String) (s : HookState) :
    (handleError env e context s).error =
      some (if jsTruthy context then (context.getD "") ++ ": " ++ errorMessageOf e
            else errorMessageOf e) ∧
    (handleError env e context s).messages =
      s.messages ++ [⟨env.id, .system,
        "Error: " ++ (if jsTruthy context then (context.getD "") ++ ": " ++ errorMessageOf e
                      else errorMessageOf e), env.timestamp⟩] ∧
    handleErrorClearDelayMs = 10000 ∧
    (handleErrorClearAction (handleError env e context s)).error = none := by
  refine ⟨?_, ?_, rfl, rfl⟩ <;> simp [handleError, addMessage]

end FormChatApp
